import Mathlib

/-!
Verification of the path-matching core of the `yew_router` repository
(pattern tokens, the `PathMatcher` wrapper, the `Switch` conversion trait
and the derive-generated capture-consumption code), as a shallow embedding
in Lean.

Route strings are Lean `String`s; character-level operations are defined on
`String.data` (the underlying `List Char`), matching Rust's `&str`
character handling for the ASCII characters the code inspects.
-/

namespace YewRouter

/-- Capture variants, from `yew_router_route_parser::parser::CaptureVariant`
(the enum's variants as used throughout `yew_router_path_matcher/src/lib.rs`
and described in the data model: `Unnamed`, `Named`, `ManyUnnamed`,
`ManyNamed`, `NumberedUnnamed{sections}`, `NumberedNamed{sections, name}`). -/
inductive CaptureVariant where
  | Unnamed : CaptureVariant
  | Named (name : String) : CaptureVariant
  | ManyUnnamed : CaptureVariant
  | ManyNamed (name : String) : CaptureVariant
  | NumberedUnnamed (sections : Nat) : CaptureVariant
  | NumberedNamed (sections : Nat) (name : String) : CaptureVariant
deriving DecidableEq, Repr

/-- Optimized matcher tokens, from `yew_router_route_parser::token_optimizer::MatcherToken`:
`Match(text)` (merged literal), `Capture(variant)`, and `Optional(inner)`
holding a sub-sequence of tokens. -/
inductive MatcherToken where
  | Match (text : String) : MatcherToken
  | Capture (variant : CaptureVariant) : MatcherToken
  | Optional (inner : List MatcherToken) : MatcherToken
deriving Repr

/-- Settings used for the matcher, from `yew_router_path_matcher/src/lib.rs`
`struct MatcherSettings { strict, complete, case_insensitive }`. -/
structure MatcherSettings where
  strict : Bool
  complete : Bool
  case_insensitive : Bool
deriving DecidableEq, Repr

/-- `impl Default for MatcherSettings` (lib.rs lines 60-68):
`strict: false, complete: true, case_insensitive: false`. -/
def MatcherSettings.default : MatcherSettings :=
  { strict := false
    complete := true
    case_insensitive := false }

/-- `struct PathMatcher { tokens: Vec<MatcherToken>, settings: MatcherSettings }`
(lib.rs lines 42-48). -/
structure PathMatcher where
  tokens : List MatcherToken
  settings : MatcherSettings

/-- `Matches` / `Captures`: a map from capture-section name to captured
content (`HashMap<&str, String>`), embedded as an association list. -/
def Matches := List (String × String)

/-- The names contributed by a single capture variant in `capture_names_impl`:
`ManyNamed(name) | Named(name) | NumberedNamed{name, ..}` insert `name`
into the accumulator, the unnamed variants insert nothing
(lib.rs lines 108-112). -/
def CaptureVariant.names : CaptureVariant → Finset String
  | .ManyNamed name => {name}
  | .Named name => {name}
  | .NumberedNamed _ name => {name}
  | .ManyUnnamed => ∅
  | .Unnamed => ∅
  | .NumberedUnnamed _ => ∅

/-- `capture_names_impl` (lib.rs lines 100-117): fold over the token list,
`Optional(t)` extends the accumulator with the recursive call on `t`,
`Match(_)` contributes nothing, `Capture(variant)` contributes the
variant's name when it has one.  The `HashSet` accumulator is embedded as
a `Finset`; extending the accumulator is set union. -/
def capture_names_impl : List MatcherToken → Finset String
  | [] => ∅
  | token :: rest =>
    (match token with
      | .Optional t => capture_names_impl t
      | .Match _ => ∅
      | .Capture variant => variant.names) ∪ capture_names_impl rest
termination_by tokens => sizeOf tokens
decreasing_by
  all_goals (simp <;> omega)

/-- `PathMatcher::capture_names` (lib.rs lines 97-119): runs
`capture_names_impl` on the matcher's token sequence. -/
def PathMatcher.capture_names (m : PathMatcher) : Finset String :=
  capture_names_impl m.tokens

/-- Formalisation of the specification's description of the capability
query: a name "occurs" in a token when the token is a `Named`, `ManyNamed`
or `NumberedNamed` capture carrying that identifier, or, recursively, when
it occurs in some token of an `Optional` sub-sequence. -/
inductive NamedOccurs (n : String) : MatcherToken → Prop where
  | named : NamedOccurs n (.Capture (.Named n))
  | manyNamed : NamedOccurs n (.Capture (.ManyNamed n))
  | numberedNamed (k : Nat) : NamedOccurs n (.Capture (.NumberedNamed k n))
  | optional {t : MatcherToken} {ts : List MatcherToken} :
      t ∈ ts → NamedOccurs n t → NamedOccurs n (.Optional ts)

/-- Modelled from the documented semantics of the external combinator
`nom::combinator::all_consuming` used at lib.rs line 91: run the inner
parser; a success that leaves a non-empty remainder becomes a failure,
a success with empty remainder and a failure are returned as they are.
Failure detail is abstracted away: results are `Option`. -/
def all_consuming (f : String → Option (String × Matches)) (i : String) :
    Option (String × Matches) :=
  match f i with
  | some (rem, out) => if rem = "" then some (rem, out) else none
  | none => none

/-- `PathMatcher::match_path` (lib.rs lines 88-95), parameterized by the
inner token-matching engine (`match_paths::match_path`; its source file is
absent from this tree, and every claim below about `match_path` holds for
an arbitrary inner engine, so it is an explicit function argument):
if `settings.complete` is set, wrap the engine in `all_consuming`,
otherwise run the engine directly on the input. -/
def PathMatcher.match_path
    (inner : List MatcherToken → MatcherSettings → String → Option (String × Matches))
    (m : PathMatcher) (i : String) : Option (String × Matches) :=
  if m.settings.complete then all_consuming (inner m.tokens m.settings) i
  else inner m.tokens m.settings i

/-- The Rust method takes `&self`; in state-passing form the receiver is
threaded through the call and handed back.  The body (lib.rs lines 88-95)
never writes to `self`, so the returned receiver is the incoming one and
the only other output is the call-local match result. -/
def PathMatcher.match_path_st
    (inner : List MatcherToken → MatcherSettings → String → Option (String × Matches))
    (m : PathMatcher) (i : String) : PathMatcher × Option (String × Matches) :=
  (m, PathMatcher.match_path inner m i)

/-- The `Switch` trait (src/route.rs lines 42-50): a type constructible
from a path.  Embedded as a structure carrying the one required method
`from_path`. -/
structure Switch (α : Type) where
  from_path : String → Option α

/-- The provided default method `from_route` (route.rs lines 47-49):
`Self::from_path(&part)`.  No implementation in the tree overrides it. -/
def Switch.from_route {α : Type} (sw : Switch α) (part : String) : Option α :=
  sw.from_path part

/-- Rust's `str::starts_with('/')` for the one-character pattern used at
route.rs line 63, on the character list of the string. -/
def startsWithSlash (s : String) : Bool :=
  match s.data with
  | [] => false
  | c :: _ => c = '/'

/-- Rust's `&part[1..]` at route.rs line 64: the string without its first
byte.  It is taken only after `starts_with('/')` succeeded, and `'/'` is a
one-byte character, so dropping one byte is dropping one character. -/
def dropFirstChar (s : String) : String :=
  ⟨s.data.drop 1⟩

/-- `struct LeadingSlash<T>(pub T)` (route.rs lines 58-59). -/
structure LeadingSlash (α : Type) where
  val : α

/-- `impl<U: Switch> Switch for LeadingSlash<U>` (route.rs lines 61-69):
if the part starts with `'/'`, parse the rest with `U::from_path` and wrap
in `LeadingSlash`, otherwise `None`. -/
def leadingSlashSwitch {α : Type} (U : Switch α) : Switch (LeadingSlash α) :=
  ⟨fun part =>
    if startsWithSlash part then
      (U.from_path (dropFirstChar part)).map LeadingSlash.mk
    else
      none⟩

/-- `impl<U: Switch> Switch for Option<U>` (route.rs lines 71-76):
`from_path` always returns `Some(U::from_path(part))`. -/
def optionSwitch {α : Type} (U : Switch α) : Switch (Option α) :=
  ⟨fun part => some (U.from_path part)⟩

/-- Digit accumulation of Rust's integer `from_str` (carried digits must
all be ASCII digits; the running value is `acc * 10 + digit`). -/
def parseDigitsAux (acc : Nat) : List Char → Option Nat
  | [] => some acc
  | c :: rest =>
      if c.isDigit then parseDigitsAux (acc * 10 + (c.toNat - 48)) rest
      else none

/-- Modelled from the documented semantics of Rust's `FromStr` for an
unsigned integer of bit-width `width` (the standard-library conversion the
`impl_switch_for_from_to_str!` macro at route.rs lines 102-141 delegates
to): an optional leading `'+'`, then one or more ASCII digits, rejecting
the empty digit string and any value not below `2 ^ width`. -/
def fromStrUnsigned (width : Nat) (s : String) : Option Nat :=
  match s.data with
  | [] => none
  | c :: rest =>
      let digits := if c = '+' then rest else c :: rest
      match digits with
      | [] => none
      | _ =>
          match parseDigitsAux 0 digits with
          | some n => if n < 2 ^ width then some n else none
          | none => none

/-- The `Switch` impl the macro `impl_switch_for_from_to_str!` generates
for an unsigned integer type of bit-width `width` (route.rs lines 102-112):
`from_path(part) = FromStr::from_str(&part).ok()`. -/
def unsignedSwitch (width : Nat) : Switch Nat :=
  ⟨fun part => fromStrUnsigned width part⟩

/-- The `Switch` impl generated for `usize` (route.rs line 119), with
`usize` taken at 64 bits. -/
def usizeSwitch : Switch Nat :=
  unsignedSwitch 64

/-- The `Switch` impl generated for `String` (route.rs line 115):
`String`'s `FromStr` is infallible and returns the string itself. -/
def stringSwitch : Switch String :=
  ⟨fun part => some part⟩

/-- `enum FromCapturesError` (yew_router_route_parser/src/lib.rs lines
26-37): `MissingField { field_name }`, a dynamic error (its boxed payload
embedded as a message string), and `UnknownErr`. -/
inductive FromCapturesError where
  | MissingField (field_name : String) : FromCapturesError
  | Error (message : String) : FromCapturesError
  | UnknownErr : FromCapturesError
deriving DecidableEq, Repr

/-- `impl FromCaptures for ()` (yew_router_route_parser/src/lib.rs lines
86-90): `from_captures(_captures)` ignores the captures and returns
`Ok(())`. -/
def fromCapturesUnit (_captures : Matches) : Except FromCapturesError Unit :=
  .ok ()

/-- `HashMap::remove(key)` on the association-list embedding of the
captures map: hand back the stored value when the key is present (removing
that entry) and `none` otherwise. -/
def removeCapture (key : String) :
    List (String × String) → Option String × List (String × String)
  | [] => (none, [])
  | (k, v) :: rest =>
      if k = key then (some v, rest)
      else
        let found_rest := removeCapture key rest
        (found_rest.1, (k, v) :: found_rest.2)

/-- One named field of a derived shape: its name (the map key the
generated code removes) and its `Switch::from_route` conversion. -/
structure NamedField (α : Type) where
  name : String
  from_route : String → Option α

/-- The field-population code `build_struct_from_captures` /
`build_variant_from_captures` generate for a list of named fields
(struct_impl.rs lines 48-65, enum_impl.rs lines 59-75): for each field in
order, `captures.remove(key)`; when present, convert with
`<FieldTy as Switch>::from_route(value)`; a missing key or a failed
conversion makes `v = None` and the generated `return None` aborts the
whole construction.  All fields share the value type `α` so the built
shape is the list of field values in declaration order. -/
def build_named_fields {α : Type} :
    List (NamedField α) → Matches → Option (List α)
  | [], _ => some []
  | f :: fs, captures =>
      let removed := removeCapture f.name captures
      let v := match removed.1 with
        | some value => f.from_route value
        | none => none
      match v with
      | some val => (build_named_fields fs removed.2).map (fun vals => val :: vals)
      | none => none

/-- The unit-shape arm `Fields::Unit` of the generated builders
(enum_impl.rs lines 119-125, struct_impl.rs lines 110-116): when the
matcher succeeded, return the variant, ignoring the captures. -/
def build_unit_variant {γ : Type} (variant : γ) (_captures : Matches) : Option γ :=
  some variant

/-- One enum variant as compiled by the derive (enum_impl.rs): the
variant's route matcher (`matcher.capture_route_into_map(route).ok()`,
yielding captures on success) and its capture-consumption builder, whose
internal `return None` aborts the generated `from_path`. -/
structure SwitchVariant (γ : Type) where
  matcher : String → Option Matches
  build : Matches → Option γ

/-- The `from_path` body `generate_enum_impl` emits (enum_impl.rs lines
28-37): the variant matchers in declaration order, each one an
`if let Some(captures) = ... { return Some(...) }` block whose inner field
failures `return None` from `from_path` itself, followed by a final
`return None`. -/
def enum_from_path {γ : Type} : List (SwitchVariant γ) → String → Option γ
  | [], _ => none
  | v :: rest, route =>
      match v.matcher route with
      | some captures => v.build captures
      | none => enum_from_path rest route

/-- Formalisation of claim C4 as stated: try the variants in declaration
order and return the first one for which matching and capture consumption
*both* succeed; `none` only when every variant fails. -/
def spec_first_full_success {γ : Type} : List (SwitchVariant γ) → String → Option γ
  | [], _ => none
  | v :: rest, route =>
      match (v.matcher route).bind v.build with
      | some x => some x
      | none => spec_first_full_success rest route

/-- Formalisation of the amended claim C4: the first variant whose
*matcher* succeeds is committed to; its builder's result (success or
failure) is the final result, and `none` is returned when no matcher
succeeds. -/
def spec_first_matcher_success {γ : Type}
    (variants : List (SwitchVariant γ)) (route : String) : Option γ :=
  match variants.find? (fun v => (v.matcher route).isSome) with
  | some v => (v.matcher route).bind v.build
  | none => none

/-- A two-variant enum instance for exercising variant precedence,
mirroring `enum Test { Variant1(usize), Variant2 }`. -/
inductive TestEnum where
  | Variant1 (item : Nat) : TestEnum
  | Variant2 : TestEnum
deriving DecidableEq, Repr

/-- The compiled form of a first variant `Variant1 { item: usize }` with
pattern `"/variant/{item}"`: on the test route (the path whose final
segment is the string "-42") its matcher succeeds with the capture
`item = "-42"`, and its builder consumes the `item` capture with the
`usize` conversion. -/
def variant1 : SwitchVariant TestEnum :=
  { matcher := fun route =>
      if route = "/variant/-42" then some [("item", "-42")] else none
    build := fun captures =>
      match build_named_fields [⟨"item", usizeSwitch.from_route⟩] captures with
      | some [item] => some (TestEnum.Variant1 item)
      | _ => none }

/-- The compiled form of a second, unit variant `Variant2` whose literal
pattern also accepts the same test route: its matcher succeeds with no
captures and its builder always succeeds. -/
def variant2 : SwitchVariant TestEnum :=
  { matcher := fun route =>
      if route = "/variant/-42" then some [] else none
    build := build_unit_variant TestEnum.Variant2 }

/-- `PathMatcher::try_from` (yew_router_path_matcher/src/lib.rs lines
72-83), parameterized by the route-pattern parser and the token optimizer
(`parser::parse` and `optimize_tokens` of `yew_router_route_parser`, whose
source files are absent from this tree; the claim holds for arbitrary
such functions, so they are explicit arguments, with `τ` the raw-token
type): `parse(i).map_err(|_| ())?`, then build the matcher with default
settings and `optimize_tokens(tokens, !settings.strict)`. -/
def try_from {τ : Type}
    (parse : String → Except Unit (List τ))
    (optimize_tokens : List τ → Bool → List MatcherToken)
    (i : String) : Except Unit PathMatcher :=
  match parse i with
  | .error _ => .error ()
  | .ok tokens =>
      let settings := MatcherSettings.default
      .ok { tokens := optimize_tokens tokens (!settings.strict), settings := settings }

/-- A name occurs in no `Match` token. -/
lemma namedOccurs_match_iff (n s : String) :
    NamedOccurs n (.Match s) ↔ False := by
  constructor
  · intro h
    cases h
  · intro h
    exact h.elim

/-- A name occurs in a `Capture` token exactly when the variant carries it. -/
lemma namedOccurs_capture_iff (n : String) (v : CaptureVariant) :
    NamedOccurs n (.Capture v) ↔ n ∈ v.names := by
  constructor
  · intro h
    cases h <;> simp [CaptureVariant.names]
  · intro h
    cases v with
    | Unnamed => simp [CaptureVariant.names] at h
    | ManyUnnamed => simp [CaptureVariant.names] at h
    | NumberedUnnamed k => simp [CaptureVariant.names] at h
    | Named name =>
        simp [CaptureVariant.names] at h
        subst h
        exact .named
    | ManyNamed name =>
        simp [CaptureVariant.names] at h
        subst h
        exact .manyNamed
    | NumberedNamed k name =>
        simp [CaptureVariant.names] at h
        subst h
        exact .numberedNamed k

/-- A name occurs in an `Optional` token exactly when it occurs in some
token of the inner sub-sequence. -/
lemma namedOccurs_optional_iff (n : String) (ts : List MatcherToken) :
    NamedOccurs n (.Optional ts) ↔ ∃ t ∈ ts, NamedOccurs n t := by
  constructor
  · intro h
    cases h with
    | optional hmem ht => exact ⟨_, hmem, ht⟩
  · rintro ⟨t, hmem, ht⟩
    exact .optional hmem ht

/-- Membership in `capture_names_impl` is exactly recursive occurrence of
the name in some token of the list. -/
theorem mem_capture_names_impl : ∀ (tokens : List MatcherToken) (n : String),
    n ∈ capture_names_impl tokens ↔ ∃ t ∈ tokens, NamedOccurs n t
  | [], n => by
      rw [capture_names_impl.eq_def]
      simp
  | token :: rest, n => by
      rw [capture_names_impl.eq_def]
      rw [Finset.mem_union, mem_capture_names_impl rest n]
      cases token with
      | Match s => simp [namedOccurs_match_iff]
      | Capture v => simp [namedOccurs_capture_iff]
      | Optional ts => simp [namedOccurs_optional_iff, mem_capture_names_impl ts n]
termination_by tokens _ => sizeOf tokens
decreasing_by all_goals (simp <;> omega)

/-- C1: with `complete = true`, `match_path` succeeds exactly when the
inner token matching succeeds with an empty unconsumed remainder — a
success of the inner engine with a non-empty remainder becomes a failure —
and with `complete = false`, `match_path` returns the inner result
unchanged, including a possibly non-empty remainder.  Quantified over
every inner matching engine, token list, the other settings, input and
result. -/
theorem claim_C1_complete_requires_full_consumption
    (inner : List MatcherToken → MatcherSettings → String → Option (String × Matches))
    (tokens : List MatcherToken) (strict ci : Bool) (i rem : String) (caps : Matches) :
    (PathMatcher.match_path inner ⟨tokens, ⟨strict, true, ci⟩⟩ i = some (rem, caps) ↔
      (inner tokens ⟨strict, true, ci⟩ i = some (rem, caps) ∧ rem = "")) ∧
    PathMatcher.match_path inner ⟨tokens, ⟨strict, false, ci⟩⟩ i =
      inner tokens ⟨strict, false, ci⟩ i := by
  constructor
  · simp only [PathMatcher.match_path, all_consuming]
    cases h : inner tokens ⟨strict, true, ci⟩ i with
    | none => simp
    | some p =>
        obtain ⟨r, c⟩ := p
        by_cases hr : r = "" <;> simp [hr] <;> aesop
  · simp [PathMatcher.match_path]

/-- C2: `capture_names` returns exactly the set of identifiers occurring
in `Named`, `ManyNamed` or `NumberedNamed` capture variants anywhere in
the matcher's optimized token sequence, recursively including captures
inside `Optional` sub-sequences, while `Match` tokens and the unnamed
variants contribute nothing.  (`capture_names` takes no input string, so
the result is independent of any concrete input.) -/
theorem claim_C2_capture_names_exact (m : PathMatcher) (n : String) :
    n ∈ m.capture_names ↔ ∃ t ∈ m.tokens, NamedOccurs n t :=
  mem_capture_names_impl m.tokens n

/-- C5: consuming captures into the unit shape always succeeds: for every
captures map whatsoever, `from_captures` for `()` returns `Ok(())` and the
generated unit-shape builder returns the variant, ignoring the captures —
the protocol never requires the map to be empty after consumption. -/
theorem claim_C5_unit_shape_ignores_captures
    (captures : Matches) {γ : Type} (v : γ) :
    fromCapturesUnit captures = Except.ok () ∧
    build_unit_variant v captures = some v :=
  ⟨rfl, rfl⟩

/-- C7: `match_path` leaves the matcher unchanged — in state-passing form
the receiver handed back has the same tokens and settings as the one
passed in, the match result is the pure function of the matcher and the
input, and a repeated call on the returned receiver yields the same
result. -/
theorem claim_C7_match_path_leaves_matcher_unchanged
    (inner : List MatcherToken → MatcherSettings → String → Option (String × Matches))
    (m : PathMatcher) (i : String) :
    (PathMatcher.match_path_st inner m i).1 = m ∧
    (PathMatcher.match_path_st inner m i).1.tokens = m.tokens ∧
    (PathMatcher.match_path_st inner m i).1.settings = m.settings ∧
    (PathMatcher.match_path_st inner m i).2 = PathMatcher.match_path inner m i ∧
    (PathMatcher.match_path_st inner (PathMatcher.match_path_st inner m i).1 i).2 =
      (PathMatcher.match_path_st inner m i).2 :=
  ⟨rfl, rfl, rfl, rfl, rfl⟩

/-- C8: for every `Switch` type `U` and input `s`, the `Switch`
implementation for `Option<U>` returns `Some(U::from_path(s))` — it never
returns `None`, so an inner failure becomes `Some(None)` instead of a
failure. -/
theorem claim_C8_option_switch_never_fails
    {α : Type} (U : Switch α) (s : String) :
    (optionSwitch U).from_path s = some (U.from_path s) ∧
    ((optionSwitch U).from_path s).isSome = true :=
  ⟨rfl, rfl⟩

/-- C9: `MatcherSettings::default()` is exactly
`{ strict: false, complete: true, case_insensitive: false }`, and
`PathMatcher::try_from` returns, for every parser and optimizer, the
matcher built from the parsed tokens optimized with
`allow_optional_separators = !strict = true` and the default settings when
the parser succeeds, and an error exactly when the parser errors. -/
theorem claim_C9_try_from_defaults
    {τ : Type} (parse : String → Except Unit (List τ))
    (optimize_tokens : List τ → Bool → List MatcherToken) (i : String) :
    MatcherSettings.default = ⟨false, true, false⟩ ∧
    try_from parse optimize_tokens i =
      (match parse i with
        | .ok tokens => .ok ⟨optimize_tokens tokens true, MatcherSettings.default⟩
        | .error _ => .error ()) := by
  refine ⟨rfl, ?_⟩
  unfold try_from
  cases parse i <;> rfl

/-- C3, evaluation at the failing input: for a named field `item` of the
capture-optional type `Option<String>`, consuming a captures map that does
not contain `item` makes the generated construction fail as a whole
(`None`), although the claim says a capture-optional field succeeds with
an absent value.  The field's `from_route` (which would produce
`Some(None)`) is never consulted, because the generated code maps an
absent key to `None` before any conversion. -/
theorem claim_C3_absent_option_field_hard_failure :
    build_named_fields [⟨"item", (optionSwitch stringSwitch).from_route⟩]
      ([] : Matches) = none := by
  rfl

/-- C4, counterexample to the claim as stated: on a route accepted by the
matchers of both variants, where the first variant's capture consumption
fails (`item: usize` fed the capture string `"-42"`) and the second
variant fully succeeds, the generated `from_path` returns `None` — the
inner `return None` of the first variant's builder aborts the whole
function — while the claim predicts the second variant. -/
theorem claim_C4_counterexample :
    enum_from_path [variant1, variant2] "/variant/-42" = none ∧
    spec_first_full_success [variant1, variant2] "/variant/-42" =
      some TestEnum.Variant2 := by
  constructor <;> rfl

/-- C4, amended: `from_path` evaluates the variants' matchers in
declaration order and commits to the first variant whose matcher succeeds:
that variant's capture consumption decides the overall result (its failure
yields `None` without trying later variants), and `None` is returned when
every matcher fails — first declared matcher match wins, never longest
match. -/
theorem claim_C4_first_matcher_match_commits {γ : Type}
    (variants : List (SwitchVariant γ)) (route : String) :
    enum_from_path variants route = spec_first_matcher_success variants route := by
  induction variants with
  | nil => rfl
  | cons v rest ih =>
      cases h : v.matcher route with
      | some caps =>
          simp [enum_from_path, spec_first_matcher_success, List.find?, h]
      | none =>
          simp [enum_from_path, spec_first_matcher_success, List.find?, h, ih]

/-- C6: the `Switch` implementation for an unsigned integer type parses
via `FromStr`: the string `"42"` converts to the value `42`, the
negative-number string `"-42"` fails, and in general any string starting
with `'-'` fails, because negative values are not representable in the
unsigned type. -/
theorem claim_C6_unsigned_conversion :
    usizeSwitch.from_path "42" = some 42 ∧
    usizeSwitch.from_path "-42" = none ∧
    ∀ rest : List Char, usizeSwitch.from_path ⟨'-' :: rest⟩ = none := by
  refine ⟨by decide, by decide, ?_⟩
  intro rest
  show fromStrUnsigned 64 ⟨'-' :: rest⟩ = none
  simp [fromStrUnsigned, parseDigitsAux]

/-- C10: `LeadingSlash::<U>::from_path(s)` succeeds with `LeadingSlash(v)`
exactly when `s` begins with `'/'` and `U::from_path` on `s` without that
leading character returns `v`; for any `s` not beginning with `'/'`,
including the empty string, the result is `None`. -/
theorem claim_C10_leading_slash {α : Type} (U : Switch α) (s : String) (v : α) :
    ((leadingSlashSwitch U).from_path s = some ⟨v⟩ ↔
      (startsWithSlash s = true ∧ U.from_path (dropFirstChar s) = some v)) ∧
    (startsWithSlash s = false → (leadingSlashSwitch U).from_path s = none) ∧
    (leadingSlashSwitch U).from_path "" = none := by
  refine ⟨?_, ?_, ?_⟩
  · simp only [leadingSlashSwitch]
    by_cases hs : startsWithSlash s
    · simp only [hs, if_true]
      cases hU : U.from_path (dropFirstChar s) <;>
        simp [hU, LeadingSlash.mk.injEq, eq_comm]
    · simp [hs]
  · intro hs
    simp [leadingSlashSwitch, hs]
  · rfl

/-- Witness for C10 at a concrete input: `"xyz"` does not begin with `'/'`
and is rejected. -/
theorem claim_C10_witness :
    startsWithSlash "xyz" = false ∧
    (leadingSlashSwitch stringSwitch).from_path "xyz" = none :=
  ⟨by decide, (claim_C10_leading_slash stringSwitch "xyz" "w").2.1 (by decide)⟩

end YewRouter
